import Mathlib

/-!
Verification of the client-side runtime of the AltHistLearn static site
(js/main.js and js/includes.js), shallowly embedded in Lean 4.

The DOM state each controller reads is modelled explicitly; handlers that
can throw a JavaScript TypeError are embedded as functions into
`Except String` (the error string records the thrown exception), and
handlers that cannot throw are total functions on the state.
-/

/-! ## Scroll-spy controller (main.js, scroll listener)

The listener queries, at event time, all sections carrying an id, all
nav-menu hash links, and the header's rendered height, then folds over the
sections in document order keeping the id of the last one whose top passes
the threshold `pageYOffset >= offsetTop - headerHeight - 100`.
-/

/-- A section element matched by the selector for sections with an id:
its id attribute, its offsetTop, and its clientHeight (read by the code
into a local that is never used afterwards). -/
structure SectionInfo where
  id : String
  offsetTop : Int
  clientHeight : Int
deriving DecidableEq

/-- A navigation link matched by the hash-link selector inside the menu:
its href attribute and whether it currently carries the active class. -/
structure Link where
  href : String
  active : Bool
deriving DecidableEq

/-- The DOM state the scroll listener reads at event time: the sections,
the nav links, the header's offsetHeight (`none` when no header element
exists, in which case reading offsetHeight throws), and window.pageYOffset. -/
structure SpyDom where
  sections : List SectionInfo
  navLinks : List Link
  header : Option Int
  pageYOffset : Int
deriving DecidableEq

/-- The TypeError raised by `document.querySelector` returning null followed
by a property read, inside the sections loop. -/
def nullHeaderError : String :=
  "TypeError: Cannot read properties of null (reading offsetHeight)"

/-- The sections.forEach loop of the scroll listener: for each section the
header is re-queried (throwing when absent) and the accumulator is replaced
by the section's id when the threshold passes.  An empty section list never
touches the header, exactly as an empty forEach runs no body. -/
def spyLoop (off : Int) (header : Option Int) : String → List SectionInfo → Except String String
  | cur, [] => Except.ok cur
  | cur, s :: ss =>
    match header with
    | none => Except.error nullHeaderError
    | some hh => spyLoop off header (if off ≥ s.offsetTop - hh - 100 then s.id else cur) ss

/-- `currentSection` as computed by the scroll listener, starting from the
empty string. -/
def computeCurrentSection (dom : SpyDom) : Except String String :=
  spyLoop dom.pageYOffset dom.header "" dom.sections

/-- The navLinks.forEach loop: every link first has the active class removed
and then re-added exactly when its href equals "#" ++ currentSection, so the
net effect on each link is `active := (href == "#" ++ current)`. -/
def updateLinks (current : String) (links : List Link) : List Link :=
  links.map fun l => { l with active := l.href == "#" ++ current }

/-- The whole scroll listener body: compute the current section (which may
throw before any link is touched), then rewrite the links. -/
def scrollHandler (dom : SpyDom) : Except String SpyDom :=
  match computeCurrentSection dom with
  | Except.error e => Except.error e
  | Except.ok cur => Except.ok { dom with navLinks := updateLinks cur dom.navLinks }

/-- Modelled from the spec's words: the last section in document order
satisfying the predicate, `none` when no section does. -/
def lastMatching (p : SectionInfo → Prop) [DecidablePred p] : List SectionInfo → Option SectionInfo
  | [] => none
  | s :: ss =>
    match lastMatching p ss with
    | some t => some t
    | none => if p s then some s else none

/-- Modelled from the spec's words: the active section id is the id of the
last section in document order with `scrollOffset >= top - headerHeight - 100`,
and the empty string when no section qualifies. -/
def activeSpec (off hh : Int) (ss : List SectionInfo) : String :=
  ((lastMatching (fun s => off ≥ s.offsetTop - hh - 100) ss).map SectionInfo.id).getD ""

/-- The three demo sections of the spec's concrete scroll-spy test. -/
def demoSections : List SectionInfo :=
  [⟨"s1", 0, 500⟩, ⟨"s2", 500, 500⟩, ⟨"s3", 1000, 500⟩]

lemma spyLoop_some (off hh : Int) :
    ∀ (ss : List SectionInfo) (cur : String),
      spyLoop off (some hh) cur ss =
        Except.ok (ss.foldl (fun c s => if off ≥ s.offsetTop - hh - 100 then s.id else c) cur) := by
  intro ss
  induction ss with
  | nil => intro cur; rfl
  | cons s ss ih => intro cur; simpa [spyLoop] using ih _

lemma foldl_lastMatching (p : SectionInfo → Prop) [DecidablePred p] :
    ∀ (ss : List SectionInfo) (a : String),
      ss.foldl (fun c s => if p s then s.id else c) a =
        ((lastMatching p ss).map SectionInfo.id).getD a := by
  intro ss
  induction ss with
  | nil => intro a; rfl
  | cons s ss ih =>
    intro a
    simp only [List.foldl_cons, lastMatching]
    rw [ih]
    cases hls : lastMatching p ss with
    | some t => simp
    | none =>
      by_cases hp : p s <;> simp [hp]

lemma computeCurrentSection_ok (ss : List SectionInfo) (ls : List Link) (off hh : Int) :
    computeCurrentSection ⟨ss, ls, some hh, off⟩ = Except.ok (activeSpec off hh ss) := by
  unfold computeCurrentSection activeSpec
  simp only [spyLoop_some]
  rw [foldl_lastMatching (fun s => off ≥ s.offsetTop - hh - 100) ss ""]

/-! ## Mobile menu controller (main.js, DOMContentLoaded handler and
keydown Escape handler)

The DOMContentLoaded handler queries the hamburger trigger and the menu
panel ONCE; only when both are present at that moment does it attach the
click listeners, and the listeners act on the nodes captured at that time.
The keydown Escape handler, by contrast, re-queries both nodes on every
key press.  Nodes are modelled with a generation number so that nodes
injected later by the fragment loader are distinct from those present at
initialization. -/

/-- A DOM node relevant to the menu: its creation generation and whether it
currently carries the active class. -/
structure NodeRef where
  gen : Nat
  active : Bool
deriving DecidableEq

/-- The DOM state the menu controller touches: the hamburger trigger and the
menu panel (each possibly absent), plus the next fresh generation number. -/
structure MenuDom where
  hamburger : Option NodeRef
  navMenu : Option NodeRef
  nextGen : Nat
deriving DecidableEq

/-- The page after the DOMContentLoaded menu handler ran: the DOM plus the
generation of the hamburger node the click listener was attached to
(`none` when the guard `if (hamburger && navMenu)` failed and nothing was
attached). -/
structure MenuPage where
  dom : MenuDom
  toggleListenerGen : Option Nat
deriving DecidableEq

/-- Whether the menu panel exists and carries the active class. -/
def panelOpen (d : MenuDom) : Bool :=
  match d.navMenu with
  | some nm => nm.active
  | none => false

/-- The DOMContentLoaded mobile-menu handler: query both nodes once; attach
the click listener only when both are present, remembering which hamburger
node it was attached to. -/
def initMobileMenu (d : MenuDom) : MenuPage :=
  match d.hamburger, d.navMenu with
  | some h, some _ => { dom := d, toggleListenerGen := some h.gen }
  | _, _ => { dom := d, toggleListenerGen := none }

/-- The fragment loader injecting the header markup: the placeholder's
innerHTML is replaced, so brand-new hamburger and menu nodes (inactive, a
fresh generation) appear; listener registrations are untouched because the
new nodes never had listeners attached. -/
def injectHeader (p : MenuPage) : MenuPage :=
  { p with
    dom := { hamburger := some ⟨p.dom.nextGen, false⟩,
             navMenu := some ⟨p.dom.nextGen, false⟩,
             nextGen := p.dom.nextGen + 1 } }

/-- A user click on the hamburger node currently in the DOM: the toggle
handler fires only if a listener was attached to that very node (same
generation); it then toggles the active class on the nodes it captured.
A click dispatching no listener changes nothing. -/
def clickHamburger (p : MenuPage) : MenuPage :=
  match p.dom.hamburger, p.dom.navMenu with
  | some h, some nm =>
    if p.toggleListenerGen = some h.gen then
      { p with
        dom := { p.dom with
                 hamburger := some ⟨h.gen, !h.active⟩,
                 navMenu := some ⟨nm.gen, !nm.active⟩ } }
    else p
  | _, _ => p

/-- A user click on a menu link: the force-close handler was attached at
initialization time (only when both nodes existed then) and removes the
active class from the captured nodes; it fires only when those captured
nodes are still the ones in the DOM. -/
def clickNavLink (p : MenuPage) : MenuPage :=
  match p.toggleListenerGen, p.dom.hamburger, p.dom.navMenu with
  | some g, some h, some nm =>
    if g = h.gen then
      { p with
        dom := { p.dom with
                 hamburger := some ⟨h.gen, false⟩,
                 navMenu := some ⟨nm.gen, false⟩ } }
    else p
  | _, _, _ => p

/-- The TypeError raised when the Escape branch reads classList on a null
hamburger query result. -/
def nullHamburgerError : String :=
  "TypeError: Cannot read properties of null (reading classList)"

/-- The keydown Escape handler: re-query both nodes; when the panel exists
and is active, remove the active class from the panel and then from the
hamburger — the latter read throws when the hamburger is absent (the panel
has already been deactivated at that point).  Returns the resulting DOM and
the uncaught error, if any. -/
def escapeHandler (d : MenuDom) : MenuDom × Option String :=
  match d.navMenu with
  | none => (d, none)
  | some nm =>
    if nm.active then
      match d.hamburger with
      | none => ({ d with navMenu := some ⟨nm.gen, false⟩ }, some nullHamburgerError)
      | some h =>
        ({ d with navMenu := some ⟨nm.gen, false⟩, hamburger := some ⟨h.gen, false⟩ }, none)
    else (d, none)

/-! ## Fragment loader (includes.js, loadHTML)

`loadHTML(url, targetSelector)` awaits `fetch(url)` and `response.text()`
inside a try block; on success the target node (when present) receives the
body as its innerHTML — with no check of `response.ok`, so a 404 error page
body is injected like any other.  The catch block logs a warning naming the
failing URL and touches nothing. -/

/-- The possible outcomes of the awaited `fetch` plus body read: the fetch
promise rejects (network-level failure), the body read rejects, or a
response arrives with its `ok` flag (false for statuses such as 404) and
its body text. -/
inductive FetchOutcome where
  | fetchReject (err : String)
  | textReject (err : String)
  | success (ok : Bool) (body : String)
deriving DecidableEq

/-- Result of one loadHTML call: the target node's content afterwards
(`none` when the node is absent from the document) and the console warnings
emitted. -/
structure LoadResult where
  target : Option String
  warnings : List String
deriving DecidableEq

/-- The body of the try block: propagate a rejection, otherwise write the
fetched body into the target node when one exists. -/
def loadBody : FetchOutcome → Option String → Except String (Option String)
  | FetchOutcome.fetchReject e, _ => Except.error e
  | FetchOutcome.textReject e, _ => Except.error e
  | FetchOutcome.success _ body, target => Except.ok (target.map fun _ => body)

/-- loadHTML: run the try block; a rejection is caught here, leaving the
target untouched and logging a warning that names the failing URL. -/
def loadHTML (url : String) (outcome : FetchOutcome) (target : Option String) : LoadResult :=
  match loadBody outcome target with
  | Except.ok t => { target := t, warnings := [] }
  | Except.error e => { target := target, warnings := ["Could not load " ++ url ++ ": " ++ e] }

/-- The DOMContentLoaded handler of includes.js: two independent loadHTML
calls for the header and footer fragments; each returns normally whatever
its outcome, so neither call can prevent the other, nor any later
initialization, from running. -/
def includesInit (headerOut footerOut : FetchOutcome)
    (headerTarget footerTarget : Option String) : LoadResult × LoadResult :=
  (loadHTML "../includes/header.html" headerOut headerTarget,
   loadHTML "../includes/footer.html" footerOut footerTarget)

/-! ## Visibility animator (main.js, IntersectionObserver callback and the
animated-elements DOMContentLoaded handler)

The setup handler gives every matched element the hidden inline style
(opacity 0, 20px vertical offset, a 600 ms transition) and observes it.
The observer callback sets opacity 1 and zero offset on every intersecting
entry's target — and never calls unobserve. -/

/-- The inline style of an animated element: the three properties the code
writes. -/
structure AnimElem where
  opacity : String
  transform : String
  transition : String
deriving DecidableEq

/-- One entry delivered to the observer callback: whether it is
intersecting, and the index of its target among the observed elements. -/
structure ObsEntry where
  isIntersecting : Bool
  targetIdx : Nat
deriving DecidableEq

/-- The animator state: the elements' styles and the indices currently
being observed. -/
structure Animator where
  elems : List AnimElem
  observed : List Nat
deriving DecidableEq

/-- Apply a function to the element at an index, leaving the list unchanged
when the index is out of range. -/
def modifyAt : List α → Nat → (α → α) → List α
  | [], _, _ => []
  | x :: xs, 0, f => f x :: xs
  | x :: xs, Nat.succ n, f => x :: modifyAt xs n f

/-- The hidden initial style the setup handler writes before observing. -/
def hideElem (e : AnimElem) : AnimElem :=
  { e with
    opacity := "0",
    transform := "translateY(20px)",
    transition := "opacity 0.6s ease, transform 0.6s ease" }

/-- The style writes of the observer callback on an intersecting target:
opacity 1 and zero offset; the transition property is left as set up. -/
def revealElem (e : AnimElem) : AnimElem :=
  { e with opacity := "1", transform := "translateY(0)" }

/-- The animated-elements DOMContentLoaded handler: hide every element and
observe all of them. -/
def setupAnimatedElements (elems : List AnimElem) : Animator :=
  { elems := elems.map hideElem, observed := List.range elems.length }

/-- The IntersectionObserver callback: for every intersecting entry, write
the revealed style onto its target.  The observed set is not touched — the
code contains no unobserve call. -/
def observerCallback (entries : List ObsEntry) (a : Animator) : Animator :=
  entries.foldl
    (fun acc en =>
      if en.isIntersecting then
        { acc with elems := modifyAt acc.elems en.targetIdx revealElem }
      else acc)
    a

/-! ## Top-level evaluation of main.js (for the missing-capability case)

main.js is a sequence of top-level statements.  `new IntersectionObserver`
is evaluated unconditionally; in an environment without the capability this
throws a ReferenceError, so every later top-level statement — including the
registration of the animated-elements setup and of the keydown Escape
listener — never executes.  Function declarations are hoisted and have no
runtime effect of their own, so they appear as no-ops. -/

/-- The top-level statements of main.js, in source order. -/
inductive TopStmt where
  | mobileMenuListener
  | scrollToSectionDecl
  | scrollSpyListener
  | learnMoreListener
  | timelineListener
  | observerOptionsDecl
  | newIntersectionObserver
  | animSetupListener
  | escapeKeyListener
  | debounceDecl
  | welcomeLogs
deriving DecidableEq

/-- Which listeners the top-level evaluation has registered so far. -/
structure ScriptState where
  mobileMenuRegistered : Bool := false
  scrollSpyRegistered : Bool := false
  observerCreated : Bool := false
  animSetupRegistered : Bool := false
  escapeKeyRegistered : Bool := false
deriving DecidableEq

/-- The ReferenceError thrown by `new IntersectionObserver(...)` in an
environment lacking the capability. -/
def missingObserverError : String :=
  "ReferenceError: IntersectionObserver is not defined"

/-- Effect of one top-level statement, given whether the environment has
intersection-detection capability. -/
def execTopStmt (hasObserverCapability : Bool) (st : ScriptState) :
    TopStmt → Except String ScriptState
  | TopStmt.mobileMenuListener => Except.ok { st with mobileMenuRegistered := true }
  | TopStmt.scrollToSectionDecl => Except.ok st
  | TopStmt.scrollSpyListener => Except.ok { st with scrollSpyRegistered := true }
  | TopStmt.learnMoreListener => Except.ok st
  | TopStmt.timelineListener => Except.ok st
  | TopStmt.observerOptionsDecl => Except.ok st
  | TopStmt.newIntersectionObserver =>
      if hasObserverCapability then Except.ok { st with observerCreated := true }
      else Except.error missingObserverError
  | TopStmt.animSetupListener => Except.ok { st with animSetupRegistered := true }
  | TopStmt.escapeKeyListener => Except.ok { st with escapeKeyRegistered := true }
  | TopStmt.debounceDecl => Except.ok st
  | TopStmt.welcomeLogs => Except.ok st

/-- Run top-level statements in order; an uncaught exception stops script
evaluation, skipping every remaining statement. -/
def runTopLevel (hasObserverCapability : Bool) :
    ScriptState → List TopStmt → ScriptState × Option String
  | st, [] => (st, none)
  | st, s :: rest =>
    match execTopStmt hasObserverCapability st s with
    | Except.ok st2 => runTopLevel hasObserverCapability st2 rest
    | Except.error e => (st, some e)

/-- The statements of main.js in their source order. -/
def mainScriptStmts : List TopStmt :=
  [TopStmt.mobileMenuListener, TopStmt.scrollToSectionDecl, TopStmt.scrollSpyListener,
   TopStmt.learnMoreListener, TopStmt.timelineListener, TopStmt.observerOptionsDecl,
   TopStmt.newIntersectionObserver, TopStmt.animSetupListener, TopStmt.escapeKeyListener,
   TopStmt.debounceDecl, TopStmt.welcomeLogs]

/-- Evaluate main.js from an empty registration state. -/
def runMainScript (hasObserverCapability : Bool) : ScriptState × Option String :=
  runTopLevel hasObserverCapability {} mainScriptStmts

/-- The animated elements' styles after page load: the hidden style is
applied only by the setup handler, which runs only if its registration
statement executed; otherwise the elements keep their authored (visible)
styles. -/
def elemsAfterLoad (hasObserverCapability : Bool) (elems : List AnimElem) : List AnimElem :=
  if (runMainScript hasObserverCapability).1.animSetupRegistered then elems.map hideElem
  else elems

/-! ## Debounce (main.js, defined at the end and never applied)

The scroll listener is attached directly to the raw handler, so the
recomputation runs once per raw scroll event.  The debounce utility, had it
been applied, resets a pending timer on every call and runs the wrapped
function only `wait` ms after the last call of a burst. -/

/-- The number of recomputations the attached scroll listener performs for
a given list of scroll-event times: one per raw event, because main.js
attaches the handler directly rather than through debounce. -/
def scrollRecomputations (events : List Nat) : Nat := events.length

/-- How many times a debounce-wrapped function runs for scroll events at
the given increasing times: each event cancels the pending timer, so the
function runs only when the next event is at least `wait` later, or after
the last event. -/
def debounceInvocations (wait : Nat) : List Nat → Nat
  | [] => 0
  | [_] => 1
  | t1 :: t2 :: ts =>
    (if t2 ≥ t1 + wait then 1 else 0) + debounceInvocations wait (t2 :: ts)

/-! ## Helper lemmas -/

lemma modifyAt_getD (f : α → α) (d : α) :
    ∀ (l : List α) (i : Nat), i < l.length → (modifyAt l i f).getD i d = f (l.getD i d) := by
  intro l
  induction l with
  | nil => intro i h; simp at h
  | cons x xs ih =>
    intro i h
    cases i with
    | zero => rfl
    | succ n =>
      simp only [modifyAt, List.getD_cons_succ]
      exact ih n (Nat.lt_of_succ_lt_succ h)

lemma getD_map_of_lt (f : α → α) (d : α) :
    ∀ (l : List α) (i : Nat), i < l.length → (l.map f).getD i d = f (l.getD i d) := by
  intro l
  induction l with
  | nil => intro i h; simp at h
  | cons x xs ih =>
    intro i h
    cases i with
    | zero => rfl
    | succ n =>
      simp only [List.map_cons, List.getD_cons_succ]
      exact ih n (Nat.lt_of_succ_lt_succ h)

lemma modifyAt_idem (f : α → α) (hf : ∀ x, f (f x) = f x) :
    ∀ (l : List α) (i : Nat), modifyAt (modifyAt l i f) i f = modifyAt l i f := by
  intro l
  induction l with
  | nil => intro i; rfl
  | cons x xs ih =>
    intro i
    cases i with
    | zero => simp [modifyAt, hf]
    | succ n => simp [modifyAt, ih]

lemma modifyAt_length (f : α → α) :
    ∀ (l : List α) (i : Nat), (modifyAt l i f).length = l.length := by
  intro l
  induction l with
  | nil => intro i; rfl
  | cons x xs ih =>
    intro i
    cases i with
    | zero => rfl
    | succ n => simp [modifyAt, ih]

lemma countP_updateLinks (cur : String) :
    ∀ ls : List Link,
      (updateLinks cur ls).countP (fun l => l.active) =
        ls.countP (fun l => l.href == "#" ++ cur) := by
  intro ls
  induction ls with
  | nil => rfl
  | cons x ls ih =>
    simp only [updateLinks, List.map_cons, List.countP_cons] at *
    rw [ih]

lemma countP_href_le_one (a : String) :
    ∀ ls : List Link, (ls.map Link.href).Nodup →
      ls.countP (fun l => l.href == a) ≤ 1 := by
  intro ls
  induction ls with
  | nil => intro _; simp
  | cons x ls ih =>
    intro h
    rw [List.map_cons, List.nodup_cons] at h
    rw [List.countP_cons]
    by_cases hx : x.href = a
    · have hzero : ls.countP (fun l => l.href == a) = 0 := by
        rw [List.countP_eq_zero]
        intro y hy
        simp only [beq_iff_eq]
        intro hya
        exact h.1 (hx ▸ hya ▸ List.mem_map_of_mem Link.href hy)
      simp [hzero, hx]
    · have : (x.href == a) = false := by simp [hx]
      simp only [this, if_false]
      exact Nat.le_trans (Nat.le_of_eq (Nat.add_zero _)) (ih h.2)

/-! ## Claim theorems -/

/-- C2 (confirmed): on every scroll recomputation the active section is the
last section in document order satisfying
`scrollOffset >= sectionTop - headerHeight - 100`, with the header height
read from the event-time DOM; for sections with tops 0, 500, 1000 and
header height 70, offset 600 selects the section at top 500 and offset 900
selects the section at top 1000. -/
theorem c2_last_matching_section (ss : List SectionInfo) (ls : List Link) (off hh : Int) :
    computeCurrentSection ⟨ss, ls, some hh, off⟩ = Except.ok (activeSpec off hh ss) ∧
    computeCurrentSection ⟨demoSections, [], some 70, 600⟩ = Except.ok "s2" ∧
    computeCurrentSection ⟨demoSections, [], some 70, 900⟩ = Except.ok "s3" :=
  ⟨computeCurrentSection_ok ss ls off hh, rfl, rfl⟩

/-- C3 (confirmed): a fragment load whose fetch or body read rejects has
the error caught inside loadHTML: the target node's prior content is left
unchanged, a warning naming the failing URL is logged, and — since each
loadHTML call returns normally — a failing header load cannot prevent the
footer load (or any later initialization) from proceeding. -/
theorem c3_fetch_failure_isolated (url e : String) (target : Option String)
    (footerOut : FetchOutcome) (footerTarget : Option String) :
    loadHTML url (FetchOutcome.fetchReject e) target =
      { target := target, warnings := ["Could not load " ++ url ++ ": " ++ e] } ∧
    loadHTML url (FetchOutcome.textReject e) target =
      { target := target, warnings := ["Could not load " ++ url ++ ": " ++ e] } ∧
    loadBody (FetchOutcome.fetchReject e) target = Except.error e ∧
    (includesInit (FetchOutcome.fetchReject e) footerOut target footerTarget).2 =
      loadHTML "../includes/footer.html" footerOut footerTarget :=
  ⟨rfl, rfl, rfl, rfl⟩

/-- C10 (confirmed): loadHTML never inspects the response's ok flag, so any
arriving response body — a 404 error page included — is written into the
present target node, replacing its prior content, with no warning logged. -/
theorem c10_non_ok_injected (url body prior : String) :
    (loadHTML url (FetchOutcome.success false body) (some prior)).target = some body ∧
    (loadHTML url (FetchOutcome.success false body) (some prior)).warnings = [] ∧
    (loadHTML url (FetchOutcome.success true body) (some prior)).target = some body :=
  ⟨rfl, rfl, rfl⟩

/-- C5 counterexample: a document with one id-carrying section but no
header element (the state before header-fragment injection) makes the
scroll handler throw a TypeError on reading offsetHeight of a null query
result, refuting that the handler never throws. -/
theorem c5_counterexample :
    scrollHandler ⟨[⟨"home", 0, 500⟩], [], none, 0⟩ = Except.error nullHeaderError :=
  rfl

/-- C5 (amended): the scroll handler never throws provided the header
element is present, or no id-carrying section exists (missing sections and
links are simply skipped); but whenever at least one section exists and the
header is absent, the handler throws a TypeError. -/
theorem c5_amended (dom : SpyDom)
    (h : dom.header.isSome = true ∨ dom.sections = []) :
    (∃ d, scrollHandler dom = Except.ok d) ∧
    (∀ (s : SectionInfo) (ss : List SectionInfo) (ls : List Link) (off : Int),
      scrollHandler ⟨s :: ss, ls, none, off⟩ = Except.error nullHeaderError) := by
  constructor
  · rcases h with h | h
    · obtain ⟨hb, nl, hd, off⟩ := dom
      obtain ⟨hh, rfl⟩ := Option.isSome_iff_exists.mp h
      exact ⟨_, by unfold scrollHandler; rw [computeCurrentSection_ok]⟩
    · refine ⟨{ dom with navLinks := updateLinks "" dom.navLinks }, ?_⟩
      unfold scrollHandler computeCurrentSection
      rw [h]
      rfl
  · intro s ss ls off
    rfl

/-- C5 witness: the amended theorem applied to the empty document. -/
theorem c5_witness :
    ∃ d, scrollHandler ⟨[], [], none, 0⟩ = Except.ok d :=
  (c5_amended ⟨[], [], none, 0⟩ (Or.inr rfl)).1

/-- C8 counterexample: (1) with no section qualifying, currentSection stays
the empty string and a link whose href is exactly "#" matches
"#" ++ "" and IS marked active, refuting that no link is active above the
first section; (2) two links sharing one href are BOTH marked active after
one recomputation, refuting that at most one link carries the indicator. -/
theorem c8_counterexample :
    scrollHandler ⟨[], [⟨"#", false⟩], some 70, 0⟩ =
      Except.ok ⟨[], [⟨"#", true⟩], some 70, 0⟩ ∧
    scrollHandler ⟨[⟨"sA", 0, 500⟩], [⟨"#sA", false⟩, ⟨"#sA", false⟩], some 70, 500⟩ =
      Except.ok ⟨[⟨"sA", 0, 500⟩], [⟨"#sA", true⟩, ⟨"#sA", true⟩], some 70, 500⟩ :=
  ⟨rfl, rfl⟩

/-- C8 (amended): after every recomputation a link is active exactly when
its href equals "#" ++ currentSection; hence, provided the links' hrefs are
pairwise distinct, at most one link is active, and provided additionally no
link's href is the bare "#", no link is active when no section satisfies
the threshold. -/
theorem c8_amended (ss : List SectionInfo) (ls : List Link) (off hh : Int)
    (hnd : (ls.map Link.href).Nodup)
    (hhash : ∀ l ∈ ls, l.href ≠ "#") :
    scrollHandler ⟨ss, ls, some hh, off⟩ =
      Except.ok ⟨ss, updateLinks (activeSpec off hh ss) ls, some hh, off⟩ ∧
    (updateLinks (activeSpec off hh ss) ls).countP (fun l => l.active) ≤ 1 ∧
    (lastMatching (fun s => off ≥ s.offsetTop - hh - 100) ss = none →
      (updateLinks (activeSpec off hh ss) ls).countP (fun l => l.active) = 0) := by
  refine ⟨?_, ?_, ?_⟩
  · unfold scrollHandler
    rw [computeCurrentSection_ok]
  · rw [countP_updateLinks]
    exact countP_href_le_one _ ls hnd
  · intro hnone
    rw [countP_updateLinks, List.countP_eq_zero]
    intro l hl
    have hs : activeSpec off hh ss = "" := by unfold activeSpec; rw [hnone]; rfl
    rw [hs]
    simpa using hhash l hl

/-- C8 witness: the amended theorem at the demo sections with two
distinct-href links, offset 600: at most one link is active. -/
theorem c8_witness :
    (updateLinks (activeSpec 600 70 demoSections)
        [⟨"#s1", false⟩, ⟨"#s2", false⟩, ⟨"#s3", false⟩]).countP (fun l => l.active) ≤ 1 :=
  (c8_amended demoSections [⟨"#s1", false⟩, ⟨"#s2", false⟩, ⟨"#s3", false⟩] 600 70
    (by decide) (by decide)).2.1

/-- C1 counterexample: in a document where the hamburger and menu panel are
injected by the fragment loader only after the controllers initialized, the
mobile-menu handler's one-time queries found nothing and attached no click
listener; after injection the hamburger node exists, yet clicking it
changes nothing and the panel never opens — the toggle does not behave
correctly, refuting the claim for the menu controller. -/
theorem c1_counterexample :
    clickHamburger (injectHeader (initMobileMenu ⟨none, none, 0⟩)) =
      injectHeader (initMobileMenu ⟨none, none, 0⟩) ∧
    (injectHeader (initMobileMenu ⟨none, none, 0⟩)).dom.hamburger = some ⟨0, false⟩ ∧
    panelOpen (clickHamburger (injectHeader (initMobileMenu ⟨none, none, 0⟩))).dom = false :=
  ⟨rfl, rfl, rfl⟩

/-- C1 (amended): the scroll-spy and escape-key handlers re-query the DOM
at each event, so on any post-injection DOM they behave per their
contracts (the scroll handler computes the last qualifying section from
the event-time DOM; the escape handler leaves a fully-present menu closed
without throwing); the mobile-menu toggle, however, queries its nodes once
at initialization — when either node is absent then, no listener is
attached, and after the fragment loader later injects both nodes a click
on the hamburger has no effect at all. -/
theorem c1_amended (d0 : MenuDom)
    (hm : d0.hamburger = none ∨ d0.navMenu = none) :
    clickHamburger (injectHeader (initMobileMenu d0)) = injectHeader (initMobileMenu d0) ∧
    (injectHeader (initMobileMenu d0)).dom.hamburger.isSome = true ∧
    (∀ (ss : List SectionInfo) (ls : List Link) (off hh : Int),
      computeCurrentSection ⟨ss, ls, some hh, off⟩ = Except.ok (activeSpec off hh ss)) ∧
    (∀ (g g2 n : Nat) (b b2 : Bool),
      (escapeHandler ⟨some ⟨g, b⟩, some ⟨g2, b2⟩, n⟩).2 = none ∧
      panelOpen (escapeHandler ⟨some ⟨g, b⟩, some ⟨g2, b2⟩, n⟩).1 = false) := by
  obtain ⟨hb, nm, n⟩ := d0
  have hinit : (initMobileMenu ⟨hb, nm, n⟩).toggleListenerGen = none := by
    rcases hm with h | h <;> simp only at h <;> subst h
    · cases nm <;> rfl
    · cases hb <;> rfl
  refine ⟨?_, ?_, ?_, ?_⟩
  · have hdom : (injectHeader (initMobileMenu ⟨hb, nm, n⟩)).toggleListenerGen = none := hinit
    unfold clickHamburger
    rw [hdom]
    simp [injectHeader]
  · rfl
  · intro ss ls off hh
    exact computeCurrentSection_ok ss ls off hh
  · intro g g2 n2 b b2
    cases b2 <;> simp [escapeHandler, panelOpen]

/-- C1 witness: the amended theorem at a document whose hamburger is absent
at initialization. -/
theorem c1_witness :
    clickHamburger (injectHeader (initMobileMenu ⟨none, some ⟨0, false⟩, 1⟩)) =
      injectHeader (initMobileMenu ⟨none, some ⟨0, false⟩, 1⟩) :=
  (c1_amended ⟨none, some ⟨0, false⟩, 1⟩ (Or.inl rfl)).1

/-- C7 counterexample: with the menu panel present and open but the
hamburger trigger absent, the escape-key handler removes the panel's active
class and then throws a TypeError reading classList of the null hamburger
query — so not every operation is a graceful no-op under every
presence/absence combination. -/
theorem c7_counterexample :
    (escapeHandler ⟨none, some ⟨0, true⟩, 1⟩).2 = some nullHamburgerError ∧
    (escapeHandler ⟨none, some ⟨0, true⟩, 1⟩).1.navMenu = some ⟨0, false⟩ :=
  ⟨rfl, rfl⟩

/-- C7 (amended): the toggle attachment and the link-click force-close are
graceful no-ops whenever the trigger or the panel is absent (nothing is
attached and clicks change nothing), and the escape-key handler never
throws except in the single combination where the panel exists and is open
while the trigger is absent. -/
theorem c7_amended (d : MenuDom)
    (h : panelOpen d = false ∨ d.hamburger.isSome = true) :
    (initMobileMenu { d with hamburger := none }).toggleListenerGen = none ∧
    clickHamburger (initMobileMenu { d with hamburger := none }) =
      initMobileMenu { d with hamburger := none } ∧
    clickNavLink (initMobileMenu { d with hamburger := none }) =
      initMobileMenu { d with hamburger := none } ∧
    (initMobileMenu { d with navMenu := none }).toggleListenerGen = none ∧
    (escapeHandler d).2 = none := by
  obtain ⟨hb, nm, n⟩ := d
  refine ⟨?_, ?_, ?_, ?_, ?_⟩
  · cases nm <;> rfl
  · cases nm <;> rfl
  · cases nm <;> rfl
  · cases hb <;> rfl
  · rcases h with hp | hs
    · cases nm with
      | none => rfl
      | some x =>
        have : x.active = false := by simpa [panelOpen] using hp
        simp [escapeHandler, this]
    · obtain ⟨hnode, rfl⟩ := Option.isSome_iff_exists.mp hs
      cases nm with
      | none => rfl
      | some x => cases hx : x.active <;> simp [escapeHandler, hx]

/-- C7 witness: the amended theorem at a document with the panel present
but closed and the trigger absent: the escape handler does not throw. -/
theorem c7_witness :
    (escapeHandler ⟨none, some ⟨0, false⟩, 1⟩).2 = none :=
  (c7_amended ⟨none, some ⟨0, false⟩, 1⟩ (Or.inl rfl)).2.2.2.2

/-- C4 counterexample: in an environment without intersection detection,
`new IntersectionObserver` throws a ReferenceError at top level, so script
evaluation stops there: the escape-key listener — registered by a later
statement — is never attached.  The missing capability therefore causes a
failure beyond the absence of animation, refuting the claim's second part. -/
theorem c4_counterexample :
    (runMainScript false).2 = some missingObserverError ∧
    (runMainScript false).1.escapeKeyRegistered = false ∧
    (runMainScript false).1.animSetupRegistered = false ∧
    (runMainScript false).1.mobileMenuRegistered = true :=
  ⟨rfl, rfl, rfl, rfl⟩

/-- C4 (amended): without the capability, the observer construction throws
before the animated-elements setup is ever registered, so no element is
given the hidden style and all content stays in its authored visible state
without any scroll interaction; but the statements after the construction
never run — in particular the escape-key listener is not attached — so the
missing capability does cause failures beyond the absence of animation. -/
theorem c4_amended (elems : List AnimElem) :
    elemsAfterLoad false elems = elems ∧
    (runMainScript false).1.animSetupRegistered = false ∧
    (runMainScript false).1.escapeKeyRegistered = false ∧
    (runMainScript false).2 = some missingObserverError ∧
    (runMainScript true).1.escapeKeyRegistered = true ∧
    (runMainScript true).1.animSetupRegistered = true ∧
    (runMainScript true).2 = none :=
  ⟨rfl, rfl, rfl, rfl, rfl, rfl, rfl⟩

/-- C6 counterexample: after the first intersection of the single observed
element, the element is still in the observed set — the callback contains
no unobserve call — refuting that the animator stops observing a revealed
element. -/
theorem c6_counterexample :
    (observerCallback [⟨true, 0⟩] (setupAnimatedElements [⟨"", "", ""⟩])).observed = [0] ∧
    (observerCallback [⟨true, 0⟩] (setupAnimatedElements [⟨"", "", ""⟩])).observed ≠ [] :=
  ⟨rfl, by decide⟩

/-- C6 (amended): the first intersection of an observed element writes the
fully visible state (opacity 1, zero vertical offset) while the 600 ms
transition set at registration stays in place; the element is NOT
unobserved, but a repeated intersection merely rewrites the identical final
values, so the state after any further intersection equals the state after
the first — no observable duplicate transition. -/
theorem c6_amended (elems : List AnimElem) (i : Nat) (hi : i < elems.length) :
    ((observerCallback [⟨true, i⟩] (setupAnimatedElements elems)).elems.getD i
        ⟨"", "", ""⟩).opacity = "1" ∧
    ((observerCallback [⟨true, i⟩] (setupAnimatedElements elems)).elems.getD i
        ⟨"", "", ""⟩).transform = "translateY(0)" ∧
    ((observerCallback [⟨true, i⟩] (setupAnimatedElements elems)).elems.getD i
        ⟨"", "", ""⟩).transition = "opacity 0.6s ease, transform 0.6s ease" ∧
    (observerCallback [⟨true, i⟩] (setupAnimatedElements elems)).observed =
      (setupAnimatedElements elems).observed ∧
    observerCallback [⟨true, i⟩] (observerCallback [⟨true, i⟩] (setupAnimatedElements elems)) =
      observerCallback [⟨true, i⟩] (setupAnimatedElements elems) := by
  have hlen : i < (elems.map hideElem).length := by simpa using hi
  have hre : (observerCallback [⟨true, i⟩] (setupAnimatedElements elems)).elems.getD i
      ⟨"", "", ""⟩ = revealElem (hideElem (elems.getD i ⟨"", "", ""⟩)) := by
    simp only [observerCallback, setupAnimatedElements, List.foldl_cons, List.foldl_nil,
      ite_true]
    rw [modifyAt_getD revealElem ⟨"", "", ""⟩ (elems.map hideElem) i hlen,
      getD_map_of_lt hideElem ⟨"", "", ""⟩ elems i hi]
  refine ⟨?_, ?_, ?_, ?_, ?_⟩
  · rw [hre]; rfl
  · rw [hre]; rfl
  · rw [hre]; rfl
  · simp [observerCallback, setupAnimatedElements]
  · simp only [observerCallback, setupAnimatedElements, List.foldl_cons, List.foldl_nil,
      ite_true]
    rw [modifyAt_idem revealElem (fun x => rfl) (elems.map hideElem) i]

/-- C6 witness: the amended theorem at a single observed element: the
observed set is unchanged by the intersection. -/
theorem c6_witness :
    (observerCallback [⟨true, 0⟩] (setupAnimatedElements [⟨"", "", ""⟩])).observed =
      (setupAnimatedElements [⟨"", "", ""⟩]).observed :=
  (c6_amended [⟨"", "", ""⟩] 0 (by decide)).2.2.2.1

/-- C9 (code bug): the scroll listener is attached directly, so every raw
scroll event triggers a full recomputation: two events 10 ms apart yield
two recomputations, where the debounce utility — defined in the same file
under a comment announcing debounced scroll events, but never applied —
would have allowed only one invocation per 100 ms window. -/
theorem c9_undebounced :
    scrollRecomputations [0, 10] = 2 ∧
    debounceInvocations 100 [0, 10] = 1 ∧
    debounceInvocations 100 [0, 10, 20, 200] = 2 := by
  refine ⟨rfl, rfl, ?_⟩
  decide
